import Mathlib

/-!
Verification of the `injectable` procedural-macro generator of the
more-rs-di repository (src/di_macros/lib.rs), as a shallow embedding.

Rust type expressions (`syn::Type`) are modelled by the mutual inductive
family `RType`/`RPath`/`RSeg`/`RArgs`; generated token streams are modelled
as strings rendered the way `quote!` interpolates them.  All functions below
are direct transliterations of the Rust functions of the same name.
-/

namespace DiMacros

mutual

/-- A Rust type expression (`syn::Type`): a type path, a trait object
(`dyn Trait`, carried as the bound's path), or any other shape (reference,
tuple, ...), which the macro never accepts. -/
inductive RType : Type where
  | path (p : RPath) : RType
  | traitObject (p : RPath) : RType
  | otherType : RType

/-- A non-empty path of segments (`syn::Path`); `first`/`last` `unwrap()`
calls in the source assume non-emptiness, which the shape encodes. -/
inductive RPath : Type where
  | single (s : RSeg) : RPath
  | cons (s : RSeg) (rest : RPath) : RPath

/-- A path segment (`syn::PathSegment`): identifier plus angle-bracketed
generic arguments. -/
inductive RSeg : Type where
  | mk (ident : String) (args : RArgs) : RSeg

/-- The generic-argument list of a segment; a `consTy` cell is a
`GenericArgument::Type`, a `consOther` cell is any other generic argument
(lifetime, const, ...). -/
inductive RArgs : Type where
  | nil : RArgs
  | consTy (t : RType) (rest : RArgs) : RArgs
  | consOther (rest : RArgs) : RArgs

end

/-- Identifier of a segment. -/
def RSeg.ident : RSeg → String
  | RSeg.mk i _ => i

/-- Generic arguments of a segment. -/
def RSeg.args : RSeg → RArgs
  | RSeg.mk _ a => a

/-- `path.segments.first().unwrap()`. -/
def RPath.firstSeg : RPath → RSeg
  | RPath.single s => s
  | RPath.cons s _ => s

/-- `path.segments.last().unwrap()`. -/
def RPath.lastSeg : RPath → RSeg
  | RPath.single s => s
  | RPath.cons _ rest => rest.lastSeg

/-- The first `GenericArgument::Type` of an argument list, skipping
non-type arguments, as the loop in `get_generic_type_arg` does. -/
def RArgs.firstTy : RArgs → Option RType
  | RArgs.nil => Option.none
  | RArgs.consTy t _ => Option.some t
  | RArgs.consOther rest => rest.firstTy

mutual

/-- Token rendering of a type expression, as `quote!` interpolation does. -/
def renderType : RType → String
  | RType.path p => renderPath p
  | RType.traitObject p => "dyn " ++ renderPath p
  | RType.otherType => "?"

/-- Token rendering of a path. -/
def renderPath : RPath → String
  | RPath.single s => renderSeg s
  | RPath.cons s rest => renderSeg s ++ "::" ++ renderPath rest

/-- Token rendering of a path segment. -/
def renderSeg : RSeg → String
  | RSeg.mk i RArgs.nil => i
  | RSeg.mk i (RArgs.consTy t rest) =>
      i ++ "<" ++ renderArgs (RArgs.consTy t rest) ++ ">"
  | RSeg.mk i (RArgs.consOther rest) =>
      i ++ "<" ++ renderArgs (RArgs.consOther rest) ++ ">"

/-- Token rendering of a generic-argument list. -/
def renderArgs : RArgs → String
  | RArgs.nil => ""
  | RArgs.consTy t RArgs.nil => renderType t
  | RArgs.consTy t (RArgs.consTy u rest) =>
      renderType t ++ ", " ++ renderArgs (RArgs.consTy u rest)
  | RArgs.consTy t (RArgs.consOther rest) =>
      renderType t ++ ", " ++ renderArgs (RArgs.consOther rest)
  | RArgs.consOther RArgs.nil => "_"
  | RArgs.consOther (RArgs.consTy u rest) =>
      "_, " ++ renderArgs (RArgs.consTy u rest)
  | RArgs.consOther (RArgs.consOther rest) =>
      "_, " ++ renderArgs (RArgs.consOther rest)

end

/-- Rendering of a `TypeTraitObject` (`dyn` plus the bound path). -/
def renderTraitObj (p : RPath) : String := "dyn " ++ renderPath p

/-- `ArgContext` of lib.rs: the unwrapped type path together with the
wrapper flags discovered so far. -/
structure ArgContext where
  type_ : RPath
  optional : Bool
  many : Bool
  lazy : Bool

/-- `ArgContext::optional_of_many`. -/
def ArgContext.optional_of_many (c : ArgContext) : Bool :=
  c.optional && c.many

/-- `get_generic_type_arg`: if the FIRST segment of the path has the given
identifier, return its first type argument. -/
def get_generic_type_arg (type_ : RPath) (name : String) : Option RType :=
  let segment := type_.firstSeg
  if segment.ident = name then segment.args.firstTy else Option.none

/-- `new_arg_context`: peel a `Lazy` wrapper, then an `Option` or `Vec`
wrapper, producing the `ArgContext`.  Errors are the source's messages. -/
def new_arg_context (arg : RType) : Except String ArgContext :=
  match arg with
  | RType.path outer =>
    let peeled : RPath × Bool :=
      match get_generic_type_arg outer "Lazy" with
      | Option.some (RType.path p) => (p, true)
      | Option.some _ => (outer, false)
      | Option.none => (outer, false)
    let type_ := peeled.1
    let lazy := peeled.2
    match get_generic_type_arg type_ "Option" with
    | Option.some (RType.path p) =>
        Except.ok (ArgContext.mk p true false lazy)
    | Option.some _ =>
        Except.error "Expected ServiceRef, Rc, or Arc."
    | Option.none =>
      match get_generic_type_arg type_ "Vec" with
      | Option.some (RType.path p) =>
          Except.ok (ArgContext.mk p false true lazy)
      | Option.some _ =>
          Except.error "Expected ServiceRef, Rc, or Arc."
      | Option.none =>
          Except.ok (ArgContext.mk type_ false false lazy)
  | _ => Except.error "Expected type path."

/-- `resolve_trait_type`: call-site expression and dependency declaration
for a trait-object target, per the optional/many/lazy flags. -/
def resolve_trait_type (trait_ : RPath) (context : ArgContext) :
    String × Option String :=
  let t := renderTraitObj trait_
  if context.optional then
    (if context.lazy then
       "di::lazy::zero_or_one::<" ++ t ++ ">(sp.clone())"
     else
       "sp.get::<" ++ t ++ ">()",
     Option.some ("di::ServiceDependency::new(di::Type::of::<" ++ t ++
       ">(), di::ServiceCardinality::ZeroOrOne)"))
  else if context.many then
    (if context.lazy then
       "di::lazy::zero_or_more::<" ++ t ++ ">(sp.clone())"
     else
       "sp.get_all::<" ++ t ++ ">().collect()",
     Option.some ("di::ServiceDependency::new(di::Type::of::<" ++ t ++
       ">(), di::ServiceCardinality::ZeroOrMore)"))
  else
    (if context.lazy then
       "di::lazy::exactly_one::<" ++ t ++ ">(sp.clone())"
     else
       "sp.get_required::<" ++ t ++ ">()",
     Option.some ("di::ServiceDependency::new(di::Type::of::<" ++ t ++
       ">(), di::ServiceCardinality::ExactlyOne)"))

/-- `resolve_struct_type`: call-site expression and dependency declaration
for a concrete (struct) target, per the optional/many/lazy flags. -/
def resolve_struct_type (struct_ : RPath) (context : ArgContext) :
    String × Option String :=
  let t := renderPath struct_
  if context.optional then
    (if context.lazy then
       "di::lazy::zero_or_one::<" ++ t ++ ">(sp.clone())"
     else
       "sp.get::<" ++ t ++ ">()",
     Option.some ("di::ServiceDependency::new(di::Type::of::<" ++ t ++
       ">(), di::ServiceCardinality::ZeroOrOne)"))
  else if context.many then
    (if context.lazy then
       "di::lazy::zero_or_more::<" ++ t ++ ">(sp.clone())"
     else
       "sp.get_all::<" ++ t ++ ">().collect()",
     Option.some ("di::ServiceDependency::new(di::Type::of::<" ++ t ++
       ">(), di::ServiceCardinality::ZeroOrMore)"))
  else
    (if context.lazy then
       "di::lazy::exactly_one::<" ++ t ++ ">(sp.clone())"
     else
       "sp.get_required::<" ++ t ++ ">()",
     Option.some ("di::ServiceDependency::new(di::Type::of::<" ++ t ++
       ">(), di::ServiceCardinality::ExactlyOne)"))

/-- `resolve_type`: classify one parameter type and produce its
(call-site expression, optional dependency declaration) pair. -/
def resolve_type (arg : RType) : Except String (String × Option String) :=
  match new_arg_context arg with
  | Except.error e => Except.error e
  | Except.ok context =>
    match (get_generic_type_arg context.type_ "ServiceRef").or
        ((get_generic_type_arg context.type_ "Rc").or
          (get_generic_type_arg context.type_ "Arc")) with
    | Option.some inner_type =>
      if context.optional_of_many then
        Except.error "Option<Vec> is not supported. Did you mean Vec?"
      else
        match inner_type with
        | RType.traitObject trait_ =>
            Except.ok (resolve_trait_type trait_ context)
        | RType.path struct_ =>
            Except.ok (resolve_struct_type struct_ context)
        | _ => Except.error "Expected a trait or struct."
    | Option.none =>
      if (context.type_.firstSeg).ident = "ServiceProvider" then
        Except.ok ("sp.clone()", Option.none)
      else
        Except.error "Expected ServiceRef, Rc, or Arc."

/-- A function argument (`syn::FnArg`): either a typed pattern or a
receiver (`self`, rejected by the macro). -/
inductive FnArg : Type where
  | typed (ty : RType) : FnArg
  | receiver : FnArg

/-- A function signature (`syn::Signature`), restricted to what the macro
reads: name and inputs. -/
structure Signature where
  ident : String
  inputs : List FnArg

/-- The per-argument step of the loop in `inject_argument_call_sites`. -/
def resolveArg (input : FnArg) : Except String (String × Option String) :=
  match input with
  | FnArg.typed ty => resolve_type ty
  | FnArg.receiver =>
      Except.error "The argument must be ServiceRef, Rc, or Arc and optionally wrapped with Option or Vec."

/-- The accumulation loop of `inject_argument_call_sites`: every argument
contributes a call-site expression in order; a declaration is appended only
when `resolve_type` produced one; the first error aborts. -/
def collect_call_sites : List FnArg → Except String (List String × List String)
  | [] => Except.ok ([], [])
  | input :: rest =>
    match resolveArg input with
    | Except.error e => Except.error e
    | Except.ok (arg, dep) =>
      match collect_call_sites rest with
      | Except.error e => Except.error e
      | Except.ok (args, deps) =>
        Except.ok (arg :: args,
          match dep with
          | Option.some d => d :: deps
          | Option.none => deps)

/-- `inject_argument_call_sites`: the (call-site arguments, dependency
declarations) pair of a construction function. -/
def inject_argument_call_sites (method : Signature) :
    Except String (List String × List String) :=
  collect_call_sites method.inputs

/-- A member of the `impl` block (`syn::ImplItem`): a method carrying a
possible `#[inject]` attribute, or any other item. -/
inductive ImplItemM : Type where
  | method (inject : Bool) (sig : Signature) : ImplItemM
  | otherItem : ImplItemM

/-- The generics of the `impl` block (`syn::Generics`): the parameter list
and the where-clause, which the macro copies verbatim without inspecting;
both are therefore carried as opaque token strings. -/
structure GenericsM where
  params : String
  whereClause : String

/-- The annotated `impl` block (`syn::ItemImpl`), restricted to what the
macro reads: generics, self type and items. -/
structure ItemImpl where
  generics : GenericsM
  self_ty : RType
  items : List ImplItemM

/-- One iteration of the scanning loop of `get_injected_method`: push the
signature when it is decorated with `#[inject]`, and overwrite the
`convention` slot when the method is named `new`. -/
def scanStep (acc : Option Signature × List Signature) (item : ImplItemM) :
    Option Signature × List Signature :=
  match item with
  | ImplItemM.method inj sig =>
    (if sig.ident = "new" then Option.some sig else acc.1,
     if inj then acc.2 ++ [sig] else acc.2)
  | ImplItemM.otherItem => acc

/-- The scanning loop of `get_injected_method`: collect the signatures
decorated with `#[inject]` in order, and remember the last method named
`new` (the source overwrites `convention` on each match). -/
def scan_items (items : List ImplItemM) : Option Signature × List Signature :=
  items.foldl scanStep (Option.none, [])

/-- `get_injected_method`: select the construction function — the unique
`#[inject]`-decorated method, else the method named `new`, else fail. -/
def get_injected_method (impl_ : ItemImpl) (path : RPath) :
    Except String Signature :=
  let scanned := scan_items impl_.items
  match scanned.2 with
  | [] =>
    match scanned.1 with
    | Option.some method => Except.ok method
    | Option.none =>
        Except.error ("Neither " ++ (path.lastSeg).ident ++
          "::new or an associated method decorated with #[inject] was found.")
  | [m] => Except.ok m
  | _ =>
      Except.error ((path.lastSeg).ident ++
        " has more than one associated method decorated with #[inject].")

/-- The token stream produced by `implement_injectable`, kept structured:
`render` below flattens it exactly as the `quote!` template does. -/
structure GeneratedImpl where
  generics : String
  whereClause : String
  implementation : RPath
  builder : String
  deps : List String
  args : List String
  fnIdent : String

/-- The `ServiceDescriptorBuilder::<Self, Self>` tokens of the
self-registration branch. -/
def selfBuilder : String :=
  "di::ServiceDescriptorBuilder::<Self, Self>::new(lifetime, di::Type::of::<Self>())"

/-- The `ServiceDescriptorBuilder::<dyn Service, Self>` tokens of the
alias-registration branch. -/
def aliasBuilder (service : RPath) : String :=
  "di::ServiceDescriptorBuilder::<dyn " ++ renderPath service ++
    ", Self>::new(lifetime, di::Type::of::<Self>())"

/-- `implement_injectable`: assemble the generated `Injectable`
implementation from the selected construction function. -/
def implement_injectable (impl_ : ItemImpl) (implementation service : RPath)
    (method : Signature) : Except String GeneratedImpl :=
  match inject_argument_call_sites method with
  | Except.error e => Except.error e
  | Except.ok argsDeps =>
    let is_trait :=
      (implementation.lastSeg).ident ≠ (service.lastSeg).ident
    GeneratedImpl.mk impl_.generics.params impl_.generics.whereClause
      implementation
      (if is_trait then aliasBuilder service else selfBuilder)
      argsDeps.2 argsDeps.1 method.ident
    |> Except.ok

/-- Flatten a `GeneratedImpl` to tokens, following the `quote!` template of
`implement_injectable` (`impl#generics di::Injectable for #implementation
#where_ { fn inject(...) { #new#depends_on.from(...) } }`). -/
def render (g : GeneratedImpl) : String :=
  "impl" ++ g.generics ++ " di::Injectable for " ++
    renderPath g.implementation ++ " " ++ g.whereClause ++
    " \x7b fn inject(lifetime: di::ServiceLifetime) -> di::ServiceDescriptor \x7b " ++
    g.builder ++ String.join (g.deps.map (fun d => ".depends_on(" ++ d ++ ")")) ++
    ".from(|sp: &di::ServiceProvider| di::ServiceRef::new(Self::" ++
    g.fnIdent ++ "(" ++ String.intercalate ", " g.args ++ "))) \x7d \x7d"

/-- The parsed `#[injectable(...)]` attribute: the optional alias path. -/
structure InjectableAttribute where
  trait_ : Option RPath

/-- The annotated input tokens, as far as parsing distinguishes them: an
`impl` block, or anything else (which `parse2::<ItemImpl>` rejects). -/
inductive MacroInput : Type where
  | implBlock (impl_ : ItemImpl) : MacroInput
  | notImplBlock : MacroInput

/-- The `result` computed inside `_injectable`: either the original block
paired with the generated implementation, or the error. -/
def injectableResult (attrib : InjectableAttribute) (input : MacroInput) :
    Except String (ItemImpl × GeneratedImpl) :=
  match input with
  | MacroInput.implBlock impl_ =>
    match impl_.self_ty with
    | RType.path type_ =>
      let implementation := type_
      let service := attrib.trait_.getD implementation
      match get_injected_method impl_ implementation with
      | Except.ok method =>
        match implement_injectable impl_ implementation service method with
        | Except.ok trait_impl => Except.ok (impl_, trait_impl)
        | Except.error e => Except.error e
      | Except.error e => Except.error e
    | _ => Except.error "Expected implementation type."
  | MacroInput.notImplBlock =>
      Except.error "Attribute can only be applied to a structure implementation block."

/-- Rendering of `Error::to_compile_error`. -/
def compileErrorTokens (e : String) : String :=
  "compile_error! \x7b \"" ++ e ++ "\" \x7d"

/-- `_injectable`: on success the output is the original tokens followed by
the generated implementation; on failure it is the diagnostic alone. -/
def _injectable (attrib : InjectableAttribute) (input : MacroInput)
    (original : String) : String :=
  match injectableResult attrib input with
  | Except.ok result => original ++ render result.2
  | Except.error e => compileErrorTokens e

/-- Spec-side helper: the branch condition under which `resolve_type`
classifies a parameter as provider passthrough (no `ServiceRef`/`Rc`/`Arc`
wrapper and the unwrapped first segment is `ServiceProvider`). -/
def isProviderPassthrough (t : RType) : Bool :=
  match new_arg_context t with
  | Except.error _ => false
  | Except.ok context =>
    match (get_generic_type_arg context.type_ "ServiceRef").or
        ((get_generic_type_arg context.type_ "Rc").or
          (get_generic_type_arg context.type_ "Arc")) with
    | Option.some _ => false
    | Option.none =>
        if (context.type_.firstSeg).ident = "ServiceProvider" then true
        else false

/-- Spec-side helper: the signatures of `#[inject]`-decorated methods of an
item list, in declaration order. -/
def markedSigs (items : List ImplItemM) : List Signature :=
  items.filterMap
    (fun item =>
      match item with
      | ImplItemM.method true sig => Option.some sig
      | _ => Option.none)

/-- Spec-side helper: one step of tracking the most recent method named
`new`. -/
def lnStep (acc : Option Signature) (item : ImplItemM) : Option Signature :=
  match item with
  | ImplItemM.method _ sig =>
      if sig.ident = "new" then Option.some sig else acc
  | ImplItemM.otherItem => acc

/-- Spec-side helper: the last method named `new` in an item list, which is
what the overwriting `convention` variable of the scan holds at the end. -/
def lastNew (items : List ImplItemM) : Option Signature :=
  items.foldl lnStep Option.none

/-- Shorthand: a one-segment path with no generic arguments. -/
def path1 (name : String) : RPath :=
  RPath.single (RSeg.mk name RArgs.nil)

/-- Shorthand: a one-segment path applied to one type argument, such as
`Option<T>` or `ServiceRef<T>`. -/
def pathApp (name : String) (t : RType) : RPath :=
  RPath.single (RSeg.mk name (RArgs.consTy t RArgs.nil))

/-- Shorthand: the type `name<t>` as an `RType`. -/
def tApp (name : String) (t : RType) : RType :=
  RType.path (pathApp name t)

/-- Shorthand: a two-segment path `a::b` with no generic arguments. -/
def nsPath (a b : String) : RPath :=
  RPath.cons (RSeg.mk a RArgs.nil) (RPath.single (RSeg.mk b RArgs.nil))

/-- Sample signature named `alpha` with no parameters. -/
def sigA : Signature := Signature.mk "alpha" []

/-- Sample signature named `beta` with no parameters. -/
def sigB : Signature := Signature.mk "beta" []

/-- Sample signature named `new` with no parameters. -/
def sigNew : Signature := Signature.mk "new" []

/-- Sample signature named `create` with no parameters. -/
def sigCreate : Signature := Signature.mk "create" []

/-- Sample block with two `#[inject]`-decorated methods. -/
def c3Amb : ItemImpl :=
  ItemImpl.mk (GenericsM.mk "" "") (RType.path (path1 "FooImpl"))
    [ImplItemM.method true sigA, ImplItemM.method true sigB]

/-- Sample block with one `#[inject]`-decorated method and a method named
`new`. -/
def c3Marked : ItemImpl :=
  ItemImpl.mk (GenericsM.mk "" "") (RType.path (path1 "FooImpl"))
    [ImplItemM.method true sigCreate, ImplItemM.method false sigNew]

/-- Sample block with no `#[inject]`-decorated method and a method named
`new`. -/
def c3Conv : ItemImpl :=
  ItemImpl.mk (GenericsM.mk "" "") (RType.path (path1 "FooImpl"))
    [ImplItemM.method false sigNew, ImplItemM.otherItem]

/-- Sample block with no `#[inject]`-decorated method and no method named
`new`. -/
def c3None : ItemImpl :=
  ItemImpl.mk (GenericsM.mk "" "") (RType.path (path1 "FooImpl"))
    [ImplItemM.method false sigCreate]

/-- Sample two-parameter construction function. -/
def c4Method : Signature :=
  Signature.mk "create_new"
    [FnArg.typed (tApp "ServiceRef" (RType.traitObject (path1 "Foo"))),
     FnArg.typed (tApp "Option" (tApp "ServiceRef" (RType.traitObject (path1 "Bar"))))]

/-- Sample block holding `c4Method`. -/
def c4Impl : ItemImpl :=
  ItemImpl.mk (GenericsM.mk "" "") (RType.path (path1 "ThingImpl"))
    [ImplItemM.method true c4Method]

/-- The per-parameter classification results of `c4Method`. -/
def c4Rs : List (String × Option String) :=
  [("sp.get_required::<dyn Foo>()",
    Option.some "di::ServiceDependency::new(di::Type::of::<dyn Foo>(), di::ServiceCardinality::ExactlyOne)"),
   ("sp.get::<dyn Bar>()",
    Option.some "di::ServiceDependency::new(di::Type::of::<dyn Bar>(), di::ServiceCardinality::ZeroOrOne)")]

/-- The code generated for `c4Impl`. -/
def c4Gen : GeneratedImpl :=
  GeneratedImpl.mk "" "" (path1 "ThingImpl") (aliasBuilder (path1 "Thing"))
    ["di::ServiceDependency::new(di::Type::of::<dyn Foo>(), di::ServiceCardinality::ExactlyOne)",
     "di::ServiceDependency::new(di::Type::of::<dyn Bar>(), di::ServiceCardinality::ZeroOrOne)"]
    ["sp.get_required::<dyn Foo>()", "sp.get::<dyn Bar>()"]
    "create_new"

/-- Sample zero-parameter `new` signature. -/
def c5Method : Signature := Signature.mk "new" []

/-- Sample block whose implementing type lives in module `alpha`. -/
def c5Impl : ItemImpl :=
  ItemImpl.mk (GenericsM.mk "" "") (RType.path (nsPath "alpha" "Foo"))
    [ImplItemM.method false c5Method]

/-- The code generated for `c5Impl` when the alias shares the simple name. -/
def c5SelfGen : GeneratedImpl :=
  GeneratedImpl.mk "" "" (nsPath "alpha" "Foo") selfBuilder [] [] "new"

/-- The code generated for `c5Impl` under the alias `Bar`. -/
def c5AliasGen : GeneratedImpl :=
  GeneratedImpl.mk "" "" (nsPath "alpha" "Foo") (aliasBuilder (path1 "Bar")) [] [] "new"

/-- Sample well-formed block for the success branch of the entry point. -/
def c6Impl : ItemImpl :=
  ItemImpl.mk (GenericsM.mk "" "") (RType.path (path1 "FooImpl"))
    [ImplItemM.method false sigNew]

/-- The code generated for `c6Impl` with no alias. -/
def c6Gen : GeneratedImpl :=
  GeneratedImpl.mk "" "" (path1 "FooImpl") selfBuilder [] [] "new"

/-- The generic arguments `<TKey, TValue>` as an argument list. -/
def pairArgs : RArgs :=
  RArgs.consTy (RType.path (path1 "TKey"))
    (RArgs.consTy (RType.path (path1 "TValue")) RArgs.nil)

/-- The generic alias path `Pair<TKey, TValue>`. -/
def c8Service : RPath := RPath.single (RSeg.mk "Pair" pairArgs)

/-- The generic implementing path `PairImpl<TKey, TValue>`. -/
def c8Implementation : RPath := RPath.single (RSeg.mk "PairImpl" pairArgs)

/-- The generics of the sample generic block. -/
def c8Generics : GenericsM :=
  GenericsM.mk "<TKey, TValue>" "where TKey: Debug, TValue: Debug"

/-- Sample generic block. -/
def c8Impl : ItemImpl :=
  ItemImpl.mk c8Generics (RType.path c8Implementation)
    [ImplItemM.method false sigNew]

/-- The code generated for `c8Impl` under the alias `Pair<TKey, TValue>`. -/
def c8Gen : GeneratedImpl :=
  GeneratedImpl.mk "<TKey, TValue>" "where TKey: Debug, TValue: Debug"
    c8Implementation (aliasBuilder c8Service) [] [] "new"

theorem new_arg_context_flags (t : RType) (c : ArgContext)
    (h : new_arg_context t = Except.ok c) : c.optional_of_many = false := by
  cases t with
  | path outer =>
    unfold new_arg_context at h
    dsimp only at h
    split at h
    all_goals (try split at h)
    all_goals (try split at h)
    all_goals
      first
        | exact Except.noConfusion h
        | (injection h with h2; subst h2; rfl)
  | traitObject p => simp [new_arg_context] at h
  | otherType => simp [new_arg_context] at h

theorem new_arg_context_errors (t : RType) (e : String)
    (h : new_arg_context t = Except.error e) :
    e = "Expected ServiceRef, Rc, or Arc." ∨ e = "Expected type path." := by
  cases t with
  | path outer =>
    unfold new_arg_context at h
    dsimp only at h
    split at h
    all_goals (try split at h)
    all_goals (try split at h)
    all_goals
      first
        | exact Except.noConfusion h
        | (injection h with h2; subst h2; simp)
  | traitObject p =>
    simp only [new_arg_context, Except.error.injEq] at h
    exact Or.inr h.symm
  | otherType =>
    simp only [new_arg_context, Except.error.injEq] at h
    exact Or.inr h.symm

theorem resolve_type_errors (t : RType) (e : String)
    (h : resolve_type t = Except.error e) :
    e = "Expected ServiceRef, Rc, or Arc." ∨ e = "Expected type path." ∨
      e = "Expected a trait or struct." := by
  unfold resolve_type at h
  cases hn : new_arg_context t with
  | error e2 =>
    rw [hn] at h
    injection h with h2
    subst h2
    rcases new_arg_context_errors t e2 hn with h3 | h3 <;> simp [h3]
  | ok c =>
    rw [hn] at h
    have hf := new_arg_context_flags t c hn
    dsimp only at h
    split at h
    · rw [hf] at h
      simp only [Bool.false_eq_true, if_false] at h
      split at h
      · exact Except.noConfusion h
      · exact Except.noConfusion h
      · injection h with h2; subst h2; simp
    · split at h
      · exact Except.noConfusion h
      · injection h with h2; subst h2; simp

theorem scan_items_loop (items : List ImplItemM) :
    ∀ (conv : Option Signature) (acc : List Signature),
      items.foldl scanStep (conv, acc) =
        (items.foldl lnStep conv, acc ++ markedSigs items) := by
  induction items with
  | nil => intro conv acc; simp [markedSigs]
  | cons item rest ih =>
    intro conv acc
    cases item with
    | method inj sig =>
      simp only [List.foldl_cons, scanStep, lnStep, markedSigs,
        List.filterMap_cons]
      cases inj <;> by_cases hn : sig.ident = "new" <;>
        simp [hn, ih, markedSigs]
    | otherItem =>
      simp [scanStep, lnStep, markedSigs, ih]

theorem scan_items_eq (items : List ImplItemM) :
    scan_items items = (lastNew items, markedSigs items) := by
  have h := scan_items_loop items Option.none []
  simpa [scan_items, lastNew] using h

theorem collect_forall2 (inputs : List FnArg) (rs : List (String × Option String))
    (h : List.Forall₂ (fun input r => resolveArg input = Except.ok r) inputs rs) :
    collect_call_sites inputs =
      Except.ok (rs.map Prod.fst, rs.filterMap Prod.snd) := by
  induction h with
  | nil => rfl
  | cons h1 h2 ih =>
    rename_i x r l rl
    obtain ⟨a, d⟩ := r
    simp only [collect_call_sites, h1, ih]
    cases d <;> simp [List.filterMap_cons]

theorem resolve_trait_type_snd (tr : RPath) (c : ArgContext) :
    ∃ dep : String, (resolve_trait_type tr c).2 = Option.some dep := by
  unfold resolve_trait_type
  dsimp only
  split
  · exact ⟨_, rfl⟩
  · split
    · exact ⟨_, rfl⟩
    · exact ⟨_, rfl⟩

theorem resolve_struct_type_snd (st : RPath) (c : ArgContext) :
    ∃ dep : String, (resolve_struct_type st c).2 = Option.some dep := by
  unfold resolve_struct_type
  dsimp only
  split
  · exact ⟨_, rfl⟩
  · split
    · exact ⟨_, rfl⟩
    · exact ⟨_, rfl⟩

/-- C1 counterexample: for the parameter type `Option<Vec<ServiceRef<dyn
Bar>>>` classification fails, but the diagnostic produced is the generic
"Expected ServiceRef, Rc, or Arc." message, not the InvalidOptionalMultiplicity
message "Option<Vec> is not supported. Did you mean Vec?" that the claim
asserts. -/
theorem C1_counterexample :
    resolve_type (tApp "Option" (tApp "Vec"
        (tApp "ServiceRef" (RType.traitObject (path1 "Bar"))))) =
      Except.error "Expected ServiceRef, Rc, or Arc." ∧
    ("Expected ServiceRef, Rc, or Arc." : String) ≠
      "Option<Vec> is not supported. Did you mean Vec?" :=
  ⟨rfl, by decide⟩

/-- C1 (amended): an optional-of-collection parameter always fails
classification, regardless of nesting order and of the inner dependency,
but with the generic UnsupportedParameterType diagnostic "Expected
ServiceRef, Rc, or Arc."; the InvalidOptionalMultiplicity diagnostic is
unreachable, because every error `resolve_type` can produce is one of three
other messages (the classifier never sets `optional` and `many`
simultaneously, so the guarded branch is dead). -/
theorem C1_optional_of_collection :
    (∀ inner : RType,
      resolve_type (tApp "Option" (tApp "Vec" inner)) =
        Except.error "Expected ServiceRef, Rc, or Arc.") ∧
    (∀ inner : RType,
      resolve_type (tApp "Lazy" (tApp "Option" (tApp "Vec" inner))) =
        Except.error "Expected ServiceRef, Rc, or Arc.") ∧
    (∀ (t : RType) (e : String), resolve_type t = Except.error e →
      e = "Expected ServiceRef, Rc, or Arc." ∨ e = "Expected type path." ∨
        e = "Expected a trait or struct.") :=
  ⟨fun _ => rfl, fun _ => rfl, resolve_type_errors⟩

/-- C1 witness: the error-message inventory applied at the concrete input
`Option<Vec<ServiceRef<dyn Bar>>>`. -/
theorem C1_witness :
    ("Expected ServiceRef, Rc, or Arc." : String) =
        "Expected ServiceRef, Rc, or Arc." ∨
      ("Expected ServiceRef, Rc, or Arc." : String) = "Expected type path." ∨
      ("Expected ServiceRef, Rc, or Arc." : String) =
        "Expected a trait or struct." :=
  C1_optional_of_collection.2.2
    (tApp "Option" (tApp "Vec" (tApp "ServiceRef" (RType.traitObject (path1 "Bar")))))
    "Expected ServiceRef, Rc, or Arc." rfl

/-- C2: for every successfully classified non-provider parameter the
(retrieval expression, declaration cardinality) pair follows the 2x3 table,
for trait-object targets and concrete targets alike: required gives
`sp.get_required` with ExactlyOne, optional gives `sp.get` with ZeroOrOne,
multi gives `sp.get_all().collect()` with ZeroOrMore, and each deferred
(`Lazy`-wrapped) counterpart instead calls the cardinality-specific
`di::lazy` constructor over `sp.clone()`, with the same cardinality. -/
theorem C2_retrieval_table (tr st : RPath) :
    (resolve_type (tApp "ServiceRef" (RType.traitObject tr)) = Except.ok
      ("sp.get_required::<" ++ renderTraitObj tr ++ ">()",
       Option.some ("di::ServiceDependency::new(di::Type::of::<" ++
         renderTraitObj tr ++ ">(), di::ServiceCardinality::ExactlyOne)"))) ∧
    (resolve_type (tApp "Option" (tApp "ServiceRef" (RType.traitObject tr))) =
      Except.ok
      ("sp.get::<" ++ renderTraitObj tr ++ ">()",
       Option.some ("di::ServiceDependency::new(di::Type::of::<" ++
         renderTraitObj tr ++ ">(), di::ServiceCardinality::ZeroOrOne)"))) ∧
    (resolve_type (tApp "Vec" (tApp "ServiceRef" (RType.traitObject tr))) =
      Except.ok
      ("sp.get_all::<" ++ renderTraitObj tr ++ ">().collect()",
       Option.some ("di::ServiceDependency::new(di::Type::of::<" ++
         renderTraitObj tr ++ ">(), di::ServiceCardinality::ZeroOrMore)"))) ∧
    (resolve_type (tApp "Lazy" (tApp "ServiceRef" (RType.traitObject tr))) =
      Except.ok
      ("di::lazy::exactly_one::<" ++ renderTraitObj tr ++ ">(sp.clone())",
       Option.some ("di::ServiceDependency::new(di::Type::of::<" ++
         renderTraitObj tr ++ ">(), di::ServiceCardinality::ExactlyOne)"))) ∧
    (resolve_type (tApp "Lazy" (tApp "Option"
        (tApp "ServiceRef" (RType.traitObject tr)))) = Except.ok
      ("di::lazy::zero_or_one::<" ++ renderTraitObj tr ++ ">(sp.clone())",
       Option.some ("di::ServiceDependency::new(di::Type::of::<" ++
         renderTraitObj tr ++ ">(), di::ServiceCardinality::ZeroOrOne)"))) ∧
    (resolve_type (tApp "Lazy" (tApp "Vec"
        (tApp "ServiceRef" (RType.traitObject tr)))) = Except.ok
      ("di::lazy::zero_or_more::<" ++ renderTraitObj tr ++ ">(sp.clone())",
       Option.some ("di::ServiceDependency::new(di::Type::of::<" ++
         renderTraitObj tr ++ ">(), di::ServiceCardinality::ZeroOrMore)"))) ∧
    (resolve_type (tApp "ServiceRef" (RType.path st)) = Except.ok
      ("sp.get_required::<" ++ renderPath st ++ ">()",
       Option.some ("di::ServiceDependency::new(di::Type::of::<" ++
         renderPath st ++ ">(), di::ServiceCardinality::ExactlyOne)"))) ∧
    (resolve_type (tApp "Option" (tApp "ServiceRef" (RType.path st))) =
      Except.ok
      ("sp.get::<" ++ renderPath st ++ ">()",
       Option.some ("di::ServiceDependency::new(di::Type::of::<" ++
         renderPath st ++ ">(), di::ServiceCardinality::ZeroOrOne)"))) ∧
    (resolve_type (tApp "Vec" (tApp "ServiceRef" (RType.path st))) =
      Except.ok
      ("sp.get_all::<" ++ renderPath st ++ ">().collect()",
       Option.some ("di::ServiceDependency::new(di::Type::of::<" ++
         renderPath st ++ ">(), di::ServiceCardinality::ZeroOrMore)"))) ∧
    (resolve_type (tApp "Lazy" (tApp "ServiceRef" (RType.path st))) =
      Except.ok
      ("di::lazy::exactly_one::<" ++ renderPath st ++ ">(sp.clone())",
       Option.some ("di::ServiceDependency::new(di::Type::of::<" ++
         renderPath st ++ ">(), di::ServiceCardinality::ExactlyOne)"))) ∧
    (resolve_type (tApp "Lazy" (tApp "Option" (tApp "ServiceRef" (RType.path st)))) =
      Except.ok
      ("di::lazy::zero_or_one::<" ++ renderPath st ++ ">(sp.clone())",
       Option.some ("di::ServiceDependency::new(di::Type::of::<" ++
         renderPath st ++ ">(), di::ServiceCardinality::ZeroOrOne)"))) ∧
    (resolve_type (tApp "Lazy" (tApp "Vec" (tApp "ServiceRef" (RType.path st)))) =
      Except.ok
      ("di::lazy::zero_or_more::<" ++ renderPath st ++ ">(sp.clone())",
       Option.some ("di::ServiceDependency::new(di::Type::of::<" ++
         renderPath st ++ ">(), di::ServiceCardinality::ZeroOrMore)"))) :=
  ⟨rfl, rfl, rfl, rfl, rfl, rfl, rfl, rfl, rfl, rfl, rfl, rfl⟩

/-- C9 counterexample: the parameter type `Rc<Option<Bar>>` nests the
optionality wrapper inside the shared-ownership wrapper — an order other
than the fixed expected outer-to-inner order — yet classification does not
fail: the inner `Option<Bar>` is treated opaquely as a concrete base
identity and an interpretation is assigned. -/
theorem C9_counterexample :
    resolve_type (tApp "Rc" (tApp "Option" (RType.path (path1 "Bar")))) =
      Except.ok ("sp.get_required::<Option<Bar>>()",
        Option.some "di::ServiceDependency::new(di::Type::of::<Option<Bar>>(), di::ServiceCardinality::ExactlyOne)") :=
  rfl

/-- C9 (amended): when the wrapper layers visible outside the
shared-ownership wrapper are nested in an order other than the fixed
expected order — optionality inside multiplicity, deferred inside
optionality or multiplicity, or a doubled wrapper — classification fails
with an UnsupportedParameterType diagnostic; a wrapper nested inside the
shared-ownership wrapper, however, is treated as part of the opaque base
identity and classifies successfully. -/
theorem C9_misnested_wrappers :
    (∀ inner : RType, resolve_type (tApp "Vec" (tApp "Option" inner)) =
      Except.error "Expected ServiceRef, Rc, or Arc.") ∧
    (∀ inner : RType, resolve_type (tApp "Option" (tApp "Lazy" inner)) =
      Except.error "Expected ServiceRef, Rc, or Arc.") ∧
    (∀ inner : RType, resolve_type (tApp "Vec" (tApp "Lazy" inner)) =
      Except.error "Expected ServiceRef, Rc, or Arc.") ∧
    (∀ inner : RType, resolve_type (tApp "Option" (tApp "Option" inner)) =
      Except.error "Expected ServiceRef, Rc, or Arc.") ∧
    (∀ inner : RType, resolve_type (tApp "Vec" (tApp "Vec" inner)) =
      Except.error "Expected ServiceRef, Rc, or Arc.") ∧
    (∀ inner : RType, resolve_type (tApp "Lazy" (tApp "Lazy" inner)) =
      Except.error "Expected ServiceRef, Rc, or Arc.") :=
  ⟨fun _ => rfl, fun _ => rfl, fun _ => rfl, fun _ => rfl, fun _ => rfl,
   fun _ => rfl⟩

/-- C10: a provider-handle parameter wrapped in an optionality or
multiplicity wrapper does not fail classification: it is treated as
provider passthrough, the wrapper is silently ignored, the retrieval
expression is `sp.clone()`, and no dependency declaration is produced. -/
theorem C10_wrapped_provider_passthrough :
    resolve_type (tApp "Option" (RType.path (path1 "ServiceProvider"))) =
      Except.ok ("sp.clone()", Option.none) ∧
    resolve_type (tApp "Vec" (RType.path (path1 "ServiceProvider"))) =
      Except.ok ("sp.clone()", Option.none) :=
  ⟨rfl, rfl⟩

theorem render_prefix (g : GeneratedImpl) :
    ∃ tail : String, render g =
      "impl" ++ g.generics ++ " di::Injectable for " ++
        renderPath g.implementation ++ " " ++ g.whereClause ++ tail := by
  refine ⟨" \x7b fn inject(lifetime: di::ServiceLifetime) -> di::ServiceDescriptor \x7b " ++
    (g.builder ++
      (String.join (g.deps.map (fun d => ".depends_on(" ++ d ++ ")")) ++
        (".from(|sp: &di::ServiceProvider| di::ServiceRef::new(Self::" ++
          (g.fnIdent ++ ("(" ++ (String.intercalate ", " g.args ++
            "))) \x7d \x7d")))))), ?_⟩
  simp [render, String.append_assoc]

/-- C3: constructor selection — two or more `#[inject]`-decorated methods
fail with the ambiguity diagnostic; exactly one is selected regardless of
its name and of whether a method named `new` exists; with none, the method
named `new` is selected when present, and otherwise selection fails with
the missing-injection-point diagnostic. -/
theorem C3_constructor_selection (impl_ : ItemImpl) (path : RPath) :
    (2 ≤ (markedSigs impl_.items).length →
      get_injected_method impl_ path =
        Except.error ((path.lastSeg).ident ++
          " has more than one associated method decorated with #[inject].")) ∧
    (∀ m : Signature, markedSigs impl_.items = [m] →
      get_injected_method impl_ path = Except.ok m) ∧
    (∀ m : Signature, markedSigs impl_.items = [] →
      lastNew impl_.items = Option.some m →
      get_injected_method impl_ path = Except.ok m) ∧
    (markedSigs impl_.items = [] → lastNew impl_.items = Option.none →
      get_injected_method impl_ path =
        Except.error ("Neither " ++ (path.lastSeg).ident ++
          "::new or an associated method decorated with #[inject] was found.")) := by
  unfold get_injected_method
  rw [scan_items_eq]
  refine ⟨?_, ?_, ?_, ?_⟩
  · intro h2
    match hm : markedSigs impl_.items, h2 with
    | a :: b :: rest, _ => rfl
  · intro m hm
    rw [hm]
  · intro m hm hn
    rw [hm, hn]
  · intro hm hn
    rw [hm, hn]

/-- C3 witness: the four selection cases at concrete blocks — two marked
methods, one marked method next to a `new`, only a `new`, and neither. -/
theorem C3_witness :
    get_injected_method c3Amb (path1 "FooImpl") =
      Except.error ((path1 "FooImpl").lastSeg.ident ++
        " has more than one associated method decorated with #[inject].") ∧
    get_injected_method c3Marked (path1 "FooImpl") = Except.ok sigCreate ∧
    get_injected_method c3Conv (path1 "FooImpl") = Except.ok sigNew ∧
    get_injected_method c3None (path1 "FooImpl") =
      Except.error ("Neither " ++ (path1 "FooImpl").lastSeg.ident ++
        "::new or an associated method decorated with #[inject] was found.") :=
  ⟨(C3_constructor_selection c3Amb (path1 "FooImpl")).1 (by decide),
   (C3_constructor_selection c3Marked (path1 "FooImpl")).2.1 sigCreate rfl,
   (C3_constructor_selection c3Conv (path1 "FooImpl")).2.2.1 sigNew rfl rfl,
   (C3_constructor_selection c3None (path1 "FooImpl")).2.2.2 rfl rfl⟩

/-- C4: for a construction function whose parameters all classify
successfully (each to the classification result paired with it by the
`Forall₂` hypothesis), the generated dependency declarations are exactly
the per-parameter declarations in the original left-to-right parameter
order, and the factory call-site arguments are exactly the per-parameter
retrieval expressions in that same order. -/
theorem C4_order (impl_ : ItemImpl) (implementation service : RPath)
    (method : Signature) (rs : List (String × Option String)) (g : GeneratedImpl)
    (hr : List.Forall₂ (fun input r => resolveArg input = Except.ok r)
      method.inputs rs)
    (hg : implement_injectable impl_ implementation service method = Except.ok g) :
    g.args = rs.map Prod.fst ∧ g.deps = rs.filterMap Prod.snd := by
  unfold implement_injectable inject_argument_call_sites at hg
  rw [collect_forall2 method.inputs rs hr] at hg
  dsimp only at hg
  injection hg with h2
  subst h2
  exact ⟨rfl, rfl⟩

/-- C4 witness: order preservation at a concrete two-parameter
construction function. -/
theorem C4_witness :
    c4Gen.args = c4Rs.map Prod.fst ∧ c4Gen.deps = c4Rs.filterMap Prod.snd :=
  C4_order c4Impl (path1 "ThingImpl") (path1 "Thing") c4Method c4Rs c4Gen
    (List.Forall₂.cons rfl (List.Forall₂.cons rfl List.Forall₂.nil)) rfl

/-- C5: the self-vs-alias decision compares only the final path segments:
equal simple names give the self-registration builder (`<Self, Self>`),
different simple names give the alias builder (`<dyn Alias, Self>`); the
rest of the paths plays no part. -/
theorem C5_simple_name_comparison (impl_ : ItemImpl)
    (implementation service : RPath) (method : Signature) (g : GeneratedImpl)
    (hg : implement_injectable impl_ implementation service method = Except.ok g) :
    ((implementation.lastSeg).ident = (service.lastSeg).ident →
      g.builder = selfBuilder) ∧
    (¬ (implementation.lastSeg).ident = (service.lastSeg).ident →
      g.builder = aliasBuilder service) := by
  unfold implement_injectable at hg
  cases hc : inject_argument_call_sites method with
  | error e => rw [hc] at hg; exact Except.noConfusion hg
  | ok ad =>
    rw [hc] at hg
    dsimp only at hg
    injection hg with h2
    subst h2
    constructor
    · intro he; simp [he]
    · intro he; simp [he]

/-- C5 witness: `alpha::Foo` with alias `beta::Foo` (same simple name,
different full paths) is self-registration; with alias `Bar` it is alias
registration. -/
theorem C5_witness :
    c5SelfGen.builder = selfBuilder ∧
    c5AliasGen.builder = aliasBuilder (path1 "Bar") :=
  ⟨(C5_simple_name_comparison c5Impl (nsPath "alpha" "Foo") (nsPath "beta" "Foo")
      c5Method c5SelfGen rfl).1 rfl,
   (C5_simple_name_comparison c5Impl (nsPath "alpha" "Foo") (path1 "Bar")
      c5Method c5AliasGen rfl).2 (by decide)⟩

/-- C6: when any stage fails, the transformation's output is solely the
diagnostic — it does not depend on the original tokens at all — and on
success the output is the original block followed by the generated
registration. -/
theorem C6_all_or_nothing (attrib : InjectableAttribute) (input : MacroInput) :
    (∀ e : String, injectableResult attrib input = Except.error e →
      (∀ original : String,
        _injectable attrib input original = compileErrorTokens e) ∧
      (∀ o1 o2 : String,
        _injectable attrib input o1 = _injectable attrib input o2)) ∧
    (∀ r : ItemImpl × GeneratedImpl,
      injectableResult attrib input = Except.ok r →
      ∀ original : String,
        _injectable attrib input original = original ++ render r.2) := by
  constructor
  · intro e he
    constructor
    · intro original; unfold _injectable; rw [he]
    · intro o1 o2; unfold _injectable; rw [he]
  · intro r hr original
    unfold _injectable
    rw [hr]

/-- C6 witness: the failure branch at a non-`impl` input (diagnostic-only
output, independent of the original tokens) and the success branch at a
concrete well-formed block. -/
theorem C6_witness :
    _injectable (InjectableAttribute.mk Option.none) MacroInput.notImplBlock
        "original tokens" =
      compileErrorTokens
        "Attribute can only be applied to a structure implementation block." ∧
    _injectable (InjectableAttribute.mk Option.none) MacroInput.notImplBlock
        "some tokens" =
      _injectable (InjectableAttribute.mk Option.none) MacroInput.notImplBlock
        "entirely different tokens" ∧
    _injectable (InjectableAttribute.mk Option.none)
        (MacroInput.implBlock c6Impl) "ORIGINAL" = "ORIGINAL" ++ render c6Gen :=
  ⟨((C6_all_or_nothing (InjectableAttribute.mk Option.none)
      MacroInput.notImplBlock).1 _ rfl).1 "original tokens",
   ((C6_all_or_nothing (InjectableAttribute.mk Option.none)
      MacroInput.notImplBlock).1 _ rfl).2 "some tokens" "entirely different tokens",
   (C6_all_or_nothing (InjectableAttribute.mk Option.none)
      (MacroInput.implBlock c6Impl)).2 (c6Impl, c6Gen) rfl "ORIGINAL"⟩

/-- C7: for every successfully classified parameter, a dependency
declaration is omitted exactly when the parameter is a provider-handle
(ServiceProvider) parameter; a provider parameter contributes the
retrieval expression `sp.clone()`, and every other classified parameter
contributes exactly one declaration. -/
theorem C7_declaration_iff_not_provider (t : RType) (a : String)
    (d : Option String) (h : resolve_type t = Except.ok (a, d)) :
    (d = Option.none ↔ isProviderPassthrough t = true) ∧
    (isProviderPassthrough t = true → a = "sp.clone()") ∧
    (isProviderPassthrough t = false → ∃ dep : String, d = Option.some dep) := by
  unfold resolve_type at h
  unfold isProviderPassthrough
  cases hn : new_arg_context t with
  | error e =>
    rw [hn] at h
    exact Except.noConfusion h
  | ok c =>
    rw [hn] at h
    have hf := new_arg_context_flags t c hn
    dsimp only at h ⊢
    cases ho : (get_generic_type_arg c.type_ "ServiceRef").or
        ((get_generic_type_arg c.type_ "Rc").or
          (get_generic_type_arg c.type_ "Arc")) with
    | some inner_type =>
      rw [ho] at h
      dsimp only at h ⊢
      rw [hf] at h
      simp only [Bool.false_eq_true, if_false] at h
      cases inner_type with
      | traitObject tr =>
        injection h with h2
        obtain ⟨dep, hdep⟩ := resolve_trait_type_snd tr c
        have h3 : (resolve_trait_type tr c).2 = d := congrArg Prod.snd h2
        have hd : d = Option.some dep := by rw [← h3]; exact hdep
        refine ⟨by simp [hd], ?_, fun _ => ⟨dep, hd⟩⟩
        intro hcontra
        exact absurd hcontra (by simp)
      | path st =>
        injection h with h2
        obtain ⟨dep, hdep⟩ := resolve_struct_type_snd st c
        have h3 : (resolve_struct_type st c).2 = d := congrArg Prod.snd h2
        have hd : d = Option.some dep := by rw [← h3]; exact hdep
        refine ⟨by simp [hd], ?_, fun _ => ⟨dep, hd⟩⟩
        intro hcontra
        exact absurd hcontra (by simp)
      | otherType => exact Except.noConfusion h
    | none =>
      rw [ho] at h
      dsimp only at h ⊢
      by_cases hsp : (c.type_.firstSeg).ident = "ServiceProvider"
      · simp only [hsp, if_true] at h ⊢
        injection h with h2
        have ha : a = "sp.clone()" := (congrArg Prod.fst h2).symm
        have hd : d = Option.none := (congrArg Prod.snd h2).symm
        refine ⟨by simp [hd], fun _ => ha, ?_⟩
        intro hcontra
        exact absurd hcontra (by simp)
      · simp only [hsp, if_false] at h
        exact Except.noConfusion h

/-- C7 witness: the declaration-omission rule at a wrapped provider-handle
parameter and at an `Rc<dyn Bar>` parameter. -/
theorem C7_witness :
    ((Option.none : Option String) = Option.none ↔
      isProviderPassthrough
        (tApp "Option" (RType.path (path1 "ServiceProvider"))) = true) ∧
    (∃ dep : String,
      (Option.some "di::ServiceDependency::new(di::Type::of::<dyn Bar>(), di::ServiceCardinality::ExactlyOne)" :
        Option String) = Option.some dep) :=
  ⟨(C7_declaration_iff_not_provider
      (tApp "Option" (RType.path (path1 "ServiceProvider")))
      "sp.clone()" Option.none rfl).1,
   (C7_declaration_iff_not_provider
      (tApp "Rc" (RType.traitObject (path1 "Bar")))
      "sp.get_required::<dyn Bar>()"
      (Option.some "di::ServiceDependency::new(di::Type::of::<dyn Bar>(), di::ServiceCardinality::ExactlyOne)")
      rfl).2.2 rfl⟩

/-- C8: the block's generic parameter list and where-clause are carried
verbatim into the generated implementation and its rendering, and a
generic alias identity is rendered in the `dyn` target with its generic
arguments included. -/
theorem C8_generics_preserved (impl_ : ItemImpl) (implementation service : RPath)
    (method : Signature) (g : GeneratedImpl)
    (hg : implement_injectable impl_ implementation service method = Except.ok g) :
    g.generics = impl_.generics.params ∧
    g.whereClause = impl_.generics.whereClause ∧
    (∃ tail : String, render g =
      "impl" ++ impl_.generics.params ++ " di::Injectable for " ++
        renderPath implementation ++ " " ++ impl_.generics.whereClause ++ tail) ∧
    (∀ (name : String) (a : RType) (rest : RArgs),
      aliasBuilder (RPath.single (RSeg.mk name (RArgs.consTy a rest))) =
        "di::ServiceDescriptorBuilder::<dyn " ++
          (name ++ "<" ++ renderArgs (RArgs.consTy a rest) ++ ">") ++
          ", Self>::new(lifetime, di::Type::of::<Self>())") ∧
    (¬ (implementation.lastSeg).ident = (service.lastSeg).ident →
      g.builder = aliasBuilder service) := by
  unfold implement_injectable at hg
  cases hc : inject_argument_call_sites method with
  | error e => rw [hc] at hg; exact Except.noConfusion hg
  | ok ad =>
    rw [hc] at hg
    dsimp only at hg
    injection hg with h2
    subst h2
    refine ⟨rfl, rfl, render_prefix _, fun name a rest => rfl, ?_⟩
    intro he
    simp [he]

/-- C8 witness: the generic block `PairImpl<TKey, TValue>` with alias
`Pair<TKey, TValue>`. -/
theorem C8_witness :
    c8Gen.generics = c8Impl.generics.params ∧
    c8Gen.whereClause = c8Impl.generics.whereClause ∧
    c8Gen.builder = aliasBuilder c8Service :=
  ⟨(C8_generics_preserved c8Impl c8Implementation c8Service sigNew c8Gen rfl).1,
   (C8_generics_preserved c8Impl c8Implementation c8Service sigNew c8Gen rfl).2.1,
   (C8_generics_preserved c8Impl c8Implementation c8Service sigNew c8Gen rfl).2.2.2.2
     (by decide)⟩

end DiMacros
